import Mathlib

/-!
Shallow embedding of the Query Routing & Resource-Relationship Resolution
Engine of the KubernetesQueryAgent repository.

The definitions below are translated from the Python sources under `app/`:
  * `app/services/kubernetes/kubernetes_client.py` (KubernetesBase),
  * `app/api/query_handler.py` (handle_query),
  * `app/services/kubernetes/workload/deployment.py` and `pod.py`,
  * `app/services/kubernetes/config_storage/config_maps.py` and `secrets.py`,
  * `app/services/kubernetes/cluster/persistent_volume.py` (parse_size and
    the capacity comparison of list_pvs_by_capacity).
Cluster access (the kubernetes client) is modelled as explicit data: each
list/read call of the provider is a field of a provider structure holding
either the returned items (`.ok`) or an API failure (`.error`), matching the
`client.ApiException` branches of the source.  Python runtime errors that the
source does not catch (AttributeError, TypeError) are modelled with the
`Except PyErr` result type of the embedded `handle_query`.
-/

namespace K8sQA

/-- Python runtime errors that the source code does not catch: `AttributeError`
(attribute lookup on an object lacking it) and `TypeError` (e.g. iterating
`None`).  `client.ApiException` is caught by every inspector, so it is
modelled separately by `Except Unit` results of provider calls. -/
inductive PyErr where
  | attributeError
  | typeError
deriving DecidableEq, Repr

/-- Model of Python's `sep.join(parts)` used throughout the formatters
(`", ".join(...)`, `"\n".join(...)`). -/
def joinWith (sep : String) : List String → String
  | [] => ""
  | [x] => x
  | x :: y :: xs => x ++ sep ++ joinWith sep (y :: xs)

/-- Label Selector Builder of `KubernetesBase.__init__`
(`app/services/kubernetes/kubernetes_client.py` line 12) applied to a
dictionary of labels, modelled as an insertion-ordered association list:
`",".join([f"{k}={v}" for k, v in labels.items()]) if labels else ""`. -/
def buildLabelSelector (labels : List (String × String)) : String :=
  if labels.isEmpty then ""
  else joinWith "," (labels.map (fun kv => kv.1 ++ "=" ++ kv.2))

/-- One label of the extractor schema (`app/services/openai/schema.py`):
`class Label(BaseModel): key: str; value: str`. -/
structure Label where
  key : String
  value : String
deriving DecidableEq, Repr

/-- Filters of the extractor schema: `status: str`, `labels: List[Label]`. -/
structure QueryFilters where
  status : String
  labels : List Label
deriving DecidableEq, Repr

/-- The extractor's query schema `KubernetesQuery`
(`app/services/openai/schema.py`): all fields required strings plus the
filters record. -/
structure KubernetesQuery where
  resource_category : String
  resource_type : String
  action : String
  «namespace» : String
  specific_name : String
  filters : QueryFilters
deriving DecidableEq, Repr

/-- Label Selector Builder of `KubernetesBase.__init__` as it actually
executes on the dispatch path of `handle_query`: the caller passes
`query_details.filters.labels`, which by the extractor schema is a Python
`List[Label]`, not the `Dict[str, str]` the annotation promises.  A non-empty
list is truthy, so `self.labels.items()` is evaluated and raises
`AttributeError` (`list` has no attribute `items`); an empty list is falsy and
the selector is `""`. -/
def buildSelectorFromLabelList (labels : List Label) : Except PyErr String :=
  if labels.isEmpty then .ok "" else .error .attributeError

/-! ## Quantity Parser

`parse_size` appears verbatim in
`app/services/kubernetes/cluster/persistent_volume.py` (inside
`list_pvs_by_capacity`) and in
`app/services/kubernetes/config_storage/persistent_volume.py` (inside
`get_pvcs_larger_than`):

    match = re.match(r'(\d+)([KMGTP]i?)?', size_str)
    if match:
        number = int(match.group(1))
        unit = match.group(2) or ''
        units = {'': 1, 'Ki': 1024, 'Mi': 1024 ** 2, 'Gi': 1024 ** 3,
                 'Ti': 1024 ** 4, 'Pi': 1024 ** 5}
        return number * units.get(unit, 1)
    return 0
-/

/-- Numeric value of a string of decimal digit characters, as computed by
Python's `int(...)` on the regex group of leading digits. -/
def digitsVal (l : List Char) : Nat :=
  l.foldl (fun n c => 10 * n + (c.toNat - 48)) 0

/-- The multiplier table `units.get(unit, 1)` of `parse_size`: the six keyed
units, every other captured unit (the bare letters `K M G T P`) falling back
to the default `1`. -/
def unitMul (u : String) : Nat :=
  if u == "Ki" then 1024
  else if u == "Mi" then 1024 ^ 2
  else if u == "Gi" then 1024 ^ 3
  else if u == "Ti" then 1024 ^ 4
  else if u == "Pi" then 1024 ^ 5
  else 1

/-- Group 2 of the `parse_size` regex, extracted from the text following the
leading digits: one of `K M G T P` together with an immediately following
optional `i`; anything else captures nothing (`match.group(2) or ''`). -/
def unitOf : List Char → String
  | [] => ""
  | c :: tl =>
    if c = 'K' ∨ c = 'M' ∨ c = 'G' ∨ c = 'T' ∨ c = 'P' then
      match tl with
      | 'i' :: _ => String.mk [c, 'i']
      | _ => String.mk [c]
    else ""

/-- Model of `parse_size`: `re.match(r'(\d+)([KMGTP]i?)?', s)` anchored at the
start takes the maximal run of leading digits (group 1); group 2 captures one
of `K M G T P` immediately after the digits together with an optional
following `i`; any remaining text is ignored by `re.match`.  No leading digit
means no match, hence `0`. -/
def parseSize (s : String) : Nat :=
  let chars := s.toList
  let digits := chars.takeWhile (fun c => c.isDigit)
  if digits.isEmpty then 0
  else digitsVal digits * unitMul (unitOf (chars.drop digits.length))

/-- The capacity comparison of `list_pvs_by_capacity`
(`app/services/kubernetes/cluster/persistent_volume.py` lines 121-123), with
`pv_size = parse_size(lhs)` and `threshold = parse_size(rhs)`:
`(operator == '>' and pv_size > threshold) or
 (operator == '<' and pv_size < threshold) or
 (operator == '=' and pv_size == threshold)`. -/
def compareSize (op lhs rhs : String) : Bool :=
  (op == ">" && decide (parseSize lhs > parseSize rhs))
    || (op == "<" && decide (parseSize lhs < parseSize rhs))
    || (op == "=" && (parseSize lhs == parseSize rhs))

/-! ## Deployment inspector (`app/services/kubernetes/workload/deployment.py`)

Provider calls are modelled as data: `listD` is the (label-selector scoped)
result of `list_namespaced_deployment`, `readD` the result of
`read_namespaced_deployment` per name; `.error ()` stands for a raised
`client.ApiException`, which every method catches. -/

/-- One status condition of a deployment, read by `get_status`
(`conditions[-1].type`, `conditions[-1].status`). -/
structure DeployCond where
  type : String
  status : String
deriving DecidableEq, Repr

/-- The fields of a listed deployment object that `list_deployments` reads:
`metadata.name`, `status.available_replicas` (may be `None`),
`spec.replicas` (may be `None`). -/
structure DeploymentObj where
  name : String
  availableReplicas : Option Nat
  replicas : Option Nat
deriving DecidableEq, Repr

/-- The fields of a read deployment that `get_status` / `get_creation_time`
use: `status.conditions` (empty list models `None` as well, both falsy) and
`metadata.creation_timestamp` rendered as text. -/
structure DeploymentDetail where
  conditions : List DeployCond
  creationTimestamp : String
deriving DecidableEq, Repr

/-- Cluster State Provider slice used by `DeploymentResource`. -/
structure DeploymentApi where
  listD : Except Unit (List DeploymentObj)
  readD : String → Except Unit DeploymentDetail

/-- `DeploymentResource.get_count`: `str(len(deployments.items))`, API errors
become the fixed error string. -/
def deploymentGetCount (api : DeploymentApi) : String :=
  match api.listD with
  | .ok items => toString items.length
  | .error _ => "Error querying deployment count"

/-- `DeploymentResource.get_status`: renders the last status condition, or the
no-conditions sentence; API errors become the fixed error string. -/
def deploymentGetStatus (api : DeploymentApi) (name : String) : String :=
  match api.readD name with
  | .ok d =>
    match d.conditions.getLast? with
    | some c => name ++ " is " ++ c.type ++ ": " ++ c.status
    | none => name ++ " has no status conditions."
  | .error _ => "Error querying deployment status"

/-- `DeploymentResource.get_creation_time`. -/
def deploymentGetCreationTime (api : DeploymentApi) (name : String) : String :=
  match api.readD name with
  | .ok d => name ++ " was created on " ++ d.creationTimestamp
  | .error _ => "Error querying deployment creation time"

/-- `DeploymentResource.exists`. -/
def deploymentExists (api : DeploymentApi) (ns : String) : String :=
  match api.listD with
  | .ok items =>
    if items.isEmpty then
      "No deployments found in the namespace '" ++ ns ++ "' with the specified criteria."
    else
      "Deployment(s) exist in the namespace '" ++ ns ++ "' with the specified criteria."
  | .error _ => "Error checking deployment existence"

/-- Python `or 0` applied to `status.available_replicas` / `spec.replicas`:
`None` becomes `0` (and `0` stays `0`). -/
def orZero (o : Option Nat) : Nat := o.getD 0

/-- The filter step of `DeploymentResource.list_deployments`: a deployment is
kept unless (`status_filter == "active"` and it has `0` available replicas) or
(`status_filter == "terminated"` and it has `> 0` available replicas). -/
def deploymentKeep (statusFilter : String) (d : DeploymentObj) : Bool :=
  !((statusFilter == "active" && orZero d.availableReplicas == 0)
      || (statusFilter == "terminated" && decide (orZero d.availableReplicas > 0)))

/-- The entry format of `list_deployments`:
`f"{simple_name} (Replicas: {available_replicas}/{total_replicas})"`. -/
def deploymentEntry (d : DeploymentObj) : String :=
  d.name ++ " (Replicas: " ++ toString (orZero d.availableReplicas) ++ "/"
    ++ toString (orZero d.replicas) ++ ")"

/-- `DeploymentResource.list_deployments`: empty listing returns the
"No deployments found." sentinel, a non-empty listing whose filtered set is
empty returns `f"No {status_filter} deployments found."`, otherwise the
comma-joined entries. -/
def listDeployments (ld : Except Unit (List DeploymentObj)) (statusFilter : String) : String :=
  match ld with
  | .error _ => "Error listing deployments"
  | .ok items =>
    if items.isEmpty then "No deployments found."
    else
      let fd := (items.filter (deploymentKeep statusFilter)).map deploymentEntry
      if fd.isEmpty then "No " ++ statusFilter ++ " deployments found."
      else joinWith ", " fd

/-! ## Pod inspector (`app/services/kubernetes/workload/pod.py`)

`get_status` and `list_pods` evaluate
`sum(cs.restart_count for cs in pod.status.container_statuses)`; when
`container_statuses` is `None` this raises `TypeError`, which the
`except client.ApiException` clause does not catch, so it propagates.  The
embedding returns `Except PyErr` for those methods. -/

/-- The fields of a listed/read pod that the pod inspector uses:
`metadata.name`, `status.phase`, `status.container_statuses` (restart counts,
`None` modelled as `none`), `metadata.creation_timestamp` as text. -/
structure PodItem where
  name : String
  phase : String
  containerStatuses : Option (List Nat)
  creationTimestamp : String
deriving DecidableEq, Repr

/-- Cluster State Provider slice used by `PodResource`. -/
structure PodApi where
  listP : Except Unit (List PodItem)
  readP : String → Except Unit PodItem
  readLog : String → Except Unit String

/-- `"-".join(pod_name.split("-")[:-2])`: drop the last two dash-separated
components (all of them when there are fewer than two). -/
def podSimpleName (s : String) : String :=
  joinWith "-" ((s.splitOn "-").dropLast.dropLast)

/-- `PodResource.get_count`. -/
def podGetCount (api : PodApi) : String :=
  match api.listP with
  | .ok items => toString items.length
  | .error _ => "Error querying pod count"

/-- `PodResource.get_status`: `TypeError` propagates when
`container_statuses` is `None`. -/
def podGetStatus (api : PodApi) (name : String) : Except PyErr String :=
  match api.readP name with
  | .error _ => .ok "Error querying pod status"
  | .ok p =>
    match p.containerStatuses with
    | none => .error .typeError
    | some cs =>
      .ok (podSimpleName name ++ " is " ++ p.phase ++ ", Restarts: " ++ toString cs.sum)

/-- `PodResource.get_creation_time`. -/
def podGetCreationTime (api : PodApi) (name : String) : String :=
  match api.readP name with
  | .ok p => podSimpleName name ++ " was created on " ++ p.creationTimestamp
  | .error _ => "Error querying pod creation time"

/-- `PodResource.get_logs`. -/
def podGetLogs (api : PodApi) (name : String) : String :=
  match api.readLog name with
  | .ok s => s
  | .error _ => "Error querying pod logs"

/-- The filter step of `PodResource.list_pods`: a pod is skipped when
(`status_filter == "running"` and its phase is not `"Running"`), or when
(`status_filter == "terminated"` and its phase is not `"Succeeded"`). -/
def podKeep (statusFilter : String) (p : PodItem) : Bool :=
  !((statusFilter == "running" && p.phase != "Running")
      || (statusFilter == "terminated" && p.phase != "Succeeded"))

/-- The loop body of `list_pods` over the listed items in order: skipped pods
contribute nothing; a kept pod with `container_statuses = None` raises
`TypeError` at that point; otherwise its formatted entry is appended. -/
def listPodsEntries (statusFilter : String) : List PodItem → Except PyErr (List String)
  | [] => .ok []
  | p :: rest =>
    if podKeep statusFilter p then
      match p.containerStatuses with
      | none => .error .typeError
      | some cs =>
        match listPodsEntries statusFilter rest with
        | .ok tl =>
          .ok ((podSimpleName p.name ++ " (Status: " ++ p.phase ++ ", Restarts: "
                  ++ toString cs.sum ++ ")") :: tl)
        | .error e => .error e
    else listPodsEntries statusFilter rest

/-- `PodResource.list_pods`. -/
def listPods (lp : Except Unit (List PodItem)) (statusFilter : String) : Except PyErr String :=
  match lp with
  | .error _ => .ok "Error listing pods"
  | .ok items =>
    if items.isEmpty then .ok "No pods found."
    else
      match listPodsEntries statusFilter items with
      | .error e => .error e
      | .ok fp =>
        if fp.isEmpty then .ok ("No " ++ statusFilter ++ " pods found.")
        else .ok (joinWith ", " fp)

/-! ## Dispatch Router (`app/api/query_handler.py`, `handle_query`)

The extractor call (`openai_client.extract`) is the external Intent Extractor
collaborator; the embedding starts from its output, the `KubernetesQuery`.
Both recognized branches construct their resource object first
(`DeploymentResource(...)` / `PodResource(...)`), whose `KubernetesBase`
initializer builds the label selector from `query_details.filters.labels` — a
Python `List[Label]` — before any action is dispatched.  Python truthiness of
`query_details.specific_name` (a `str`) is non-emptiness. -/

/-- `handle_query` after intent extraction: the category → type → action
decision tree of `app/api/query_handler.py`, over the deployment and pod
provider slices.  Every unrecognized category, and every unrecognized type
under `"workload"`, falls through to `response = "Dummy"`. -/
def handleQuery (dapi : DeploymentApi) (papi : PodApi) (q : KubernetesQuery) :
    Except PyErr String :=
  if q.resource_category == "workload" then
    if q.resource_type == "deployment" then
      match buildSelectorFromLabelList q.filters.labels with
      | .error e => .error e
      | .ok _sel =>
        if q.action == "count" then .ok (deploymentGetCount dapi)
        else if q.action == "status" && q.specific_name != "" then
          .ok (deploymentGetStatus dapi q.specific_name)
        else if q.action == "creation_time" && q.specific_name != "" then
          .ok (deploymentGetCreationTime dapi q.specific_name)
        else if q.action == "exists" then .ok (deploymentExists dapi q.namespace)
        else if q.action == "list" then
          .ok (listDeployments dapi.listD
                (if q.filters.status.length == 0 then "all" else q.filters.status))
        else .ok "Unsupported action or missing required parameters."
    else if q.resource_type == "pod" then
      match buildSelectorFromLabelList q.filters.labels with
      | .error e => .error e
      | .ok _sel =>
        if q.action == "count" then .ok (podGetCount papi)
        else if q.action == "status" && q.specific_name != "" then
          podGetStatus papi q.specific_name
        else if q.action == "creation_time" && q.specific_name != "" then
          .ok (podGetCreationTime papi q.specific_name)
        else if q.action == "details" && q.specific_name != "" then
          .ok (podGetLogs papi q.specific_name)
        else if q.action == "list" then
          listPods papi.listP
            (if q.filters.status.length == 0 then "all" else q.filters.status)
        else .ok "Unsupported action or missing required parameters for pod."
    else .ok "Dummy"
  else .ok "Dummy"

/-! ## Relationship Resolver
(`app/services/kubernetes/config_storage/config_maps.py` and `secrets.py`)

Pod specifications are modelled with exactly the fields the scans read.
Optional Kubernetes fields that Python guards with truthiness tests
(`pod_spec.volumes`, `container.env_from`, `container.env`,
`pod_spec.image_pull_secrets`) are modelled as lists, `None` coinciding with
the empty list (both are falsy, with identical scan behavior).  Nested
optional references (`volume.config_map`, `volume.secret`,
`env_from.config_map_ref`, `env_from.secret_ref`, `env_var.value_from`,
`value_from.config_map_key_ref`, `value_from.secret_key_ref`) are `Option`s
carrying the referenced name. -/

/-- One volume of a pod spec: `volume.config_map.name` and
`volume.secret.secret_name` when those references are present. -/
structure Volume where
  configMapName : Option String
  secretName : Option String
deriving DecidableEq, Repr

/-- One `env_from` entry of a container: `config_map_ref.name` /
`secret_ref.name` when present. -/
structure EnvFromSource where
  configMapRefName : Option String
  secretRefName : Option String
deriving DecidableEq, Repr

/-- The `value_from` source of an env entry: `config_map_key_ref.name` /
`secret_key_ref.name` when present. -/
structure EnvValueFrom where
  configMapKeyRefName : Option String
  secretKeyRefName : Option String
deriving DecidableEq, Repr

/-- One `env` entry of a container: its optional `value_from` source. -/
structure EnvVar where
  valueFrom : Option EnvValueFrom
deriving DecidableEq, Repr

/-- One container of a pod spec: its `env_from` and `env` lists. -/
structure Container where
  envFrom : List EnvFromSource
  env : List EnvVar
deriving DecidableEq, Repr

/-- A pod specification as read by the scans: `volumes`, `containers`, and
`image_pull_secrets` (the names of its local object references). -/
structure PodSpec where
  volumes : List Volume
  containers : List Container
  imagePullSecrets : List String
deriving DecidableEq, Repr

/-- A Deployment/StatefulSet/DaemonSet as read by the scans:
`metadata.name` and `spec.template.spec`. -/
structure WorkloadObj where
  name : String
  template : PodSpec
deriving DecidableEq, Repr

/-- A pod as read by the scans: `metadata.name`,
`metadata.owner_references` (owner UIDs; `None` modelled as `[]`, both
falsy), and `spec`. -/
structure PodObj where
  name : String
  ownerReferences : List String
  spec : PodSpec
deriving DecidableEq, Repr

/-- A ConfigMap as listed by `get_unused_configmaps`: its `metadata.name`. -/
structure ConfigMapObj where
  name : String
deriving DecidableEq, Repr

/-- Cluster State Provider slice used by the relationship scans: the five
namespace-wide listing calls they make (`list_namespaced_deployment`,
`..._stateful_set`, `..._daemon_set`, `..._pod`, `..._config_map`).
`.error ()` stands for a raised `client.ApiException`. -/
structure RelProvider where
  deployments : Except Unit (List WorkloadObj)
  statefulsets : Except Unit (List WorkloadObj)
  daemonsets : Except Unit (List WorkloadObj)
  pods : Except Unit (List PodObj)
  configmaps : Except Unit (List ConfigMapObj)

/-- `ConfigMapResource._uses_configmap`: a volume whose `config_map` names the
target, a container `env_from` entry whose `config_map_ref` names the target,
or a container `env` entry whose `value_from.config_map_key_ref` names the
target. -/
def usesConfigmap (ps : PodSpec) (n : String) : Bool :=
  ps.volumes.any (fun v => v.configMapName == some n)
    || ps.containers.any (fun c =>
        c.envFrom.any (fun e => e.configMapRefName == some n)
          || c.env.any (fun e =>
              e.valueFrom.any (fun vf => vf.configMapKeyRefName == some n)))

/-- `SecretResource._uses_secret`: like the ConfigMap scan with the secret
references, plus the `image_pull_secrets` membership check. -/
def usesSecret (ps : PodSpec) (n : String) : Bool :=
  ps.volumes.any (fun v => v.secretName == some n)
    || ps.containers.any (fun c =>
        c.envFrom.any (fun e => e.secretRefName == some n)
          || c.env.any (fun e =>
              e.valueFrom.any (fun vf => vf.secretKeyRefName == some n)))
    || ps.imagePullSecrets.any (fun i => i == n)

/-- The consumer list built by `get_workloads_using_configmap`: matching
deployments, then statefulsets, then daemonsets, each tagged `Kind/name`,
then pods with a falsy `owner_references` whose spec matches, tagged
`Pod/name`. -/
def configmapConsumerTags (ds ss dss : List WorkloadObj) (ps : List PodObj) (n : String) :
    List String :=
  (ds.filter (fun d => usesConfigmap d.template n)).map (fun d => "Deployment/" ++ d.name)
    ++ (ss.filter (fun s => usesConfigmap s.template n)).map (fun s => "StatefulSet/" ++ s.name)
    ++ (dss.filter (fun a => usesConfigmap a.template n)).map (fun a => "DaemonSet/" ++ a.name)
    ++ (ps.filter (fun p => p.ownerReferences.isEmpty && usesConfigmap p.spec n)).map
        (fun p => "Pod/" ++ p.name)

/-- The consumer list built by `get_workloads_using_secret`, same shape as
the ConfigMap one over `_uses_secret`. -/
def secretConsumerTags (ds ss dss : List WorkloadObj) (ps : List PodObj) (n : String) :
    List String :=
  (ds.filter (fun d => usesSecret d.template n)).map (fun d => "Deployment/" ++ d.name)
    ++ (ss.filter (fun s => usesSecret s.template n)).map (fun s => "StatefulSet/" ++ s.name)
    ++ (dss.filter (fun a => usesSecret a.template n)).map (fun a => "DaemonSet/" ++ a.name)
    ++ (ps.filter (fun p => p.ownerReferences.isEmpty && usesSecret p.spec n)).map
        (fun p => "Pod/" ++ p.name)

/-- Python's substring test `pat in s`. -/
def containsSubstr (s pat : String) : Bool :=
  decide (pat.toList <:+: s.toList)

/-- `ConfigMapResource.get_workloads_using_configmap`: the four listing calls
inside one `try`; any `ApiException` yields the fixed error string; an empty
consumer list yields `f"No workloads are using ConfigMap '{name}'."`,
otherwise the header plus the newline-joined tags. -/
def getWorkloadsUsingConfigmap (p : RelProvider) (n : String) : String :=
  match p.deployments, p.statefulsets, p.daemonsets, p.pods with
  | .ok ds, .ok ss, .ok dss, .ok ps =>
    let tags := configmapConsumerTags ds ss dss ps n
    if tags.isEmpty then "No workloads are using ConfigMap '" ++ n ++ "'."
    else "Workloads using ConfigMap '" ++ n ++ "':\n" ++ joinWith "\n" tags
  | _, _, _, _ => "Error finding workloads using configmap"

/-- The names collected by the loop of
`ConfigMapResource.get_unused_configmaps`: every listed ConfigMap whose
per-object scan result contains the substring
`"No workloads are using ConfigMap"` (Python's `in`).  An error from the
listing call itself gives the empty collection (the loop is never reached). -/
def unusedConfigmapNames (p : RelProvider) : List String :=
  match p.configmaps with
  | .error _ => []
  | .ok cms =>
    ((cms.filter (fun cm =>
        containsSubstr (getWorkloadsUsingConfigmap p cm.name)
          "No workloads are using ConfigMap")).map (fun cm => cm.name))

/-- `ConfigMapResource.get_unused_configmaps`: a failed ConfigMap listing
yields the fixed error string; an empty listing yields
`"No configmaps found."`; otherwise the unused names (per the substring test
on each per-object scan) are reported, or
`"All ConfigMaps are used by workloads."` when none qualifies. -/
def getUnusedConfigmaps (p : RelProvider) : String :=
  match p.configmaps with
  | .error _ => "Error retrieving unused configmaps"
  | .ok cms =>
    if cms.isEmpty then "No configmaps found."
    else
      let unused := unusedConfigmapNames p
      if unused.isEmpty then "All ConfigMaps are used by workloads."
      else "Unused ConfigMaps:\n" ++ joinWith "\n" unused

/-- `SecretResource.get_workloads_using_secret`. -/
def getWorkloadsUsingSecret (p : RelProvider) (n : String) : String :=
  match p.deployments, p.statefulsets, p.daemonsets, p.pods with
  | .ok ds, .ok ss, .ok dss, .ok ps =>
    let tags := secretConsumerTags ds ss dss ps n
    if tags.isEmpty then "No workloads are using Secret '" ++ n ++ "'."
    else "Workloads using Secret '" ++ n ++ "':\n" ++ joinWith "\n" tags
  | _, _, _, _ => "Error finding workloads using secret"

/-! ## ConfigMap listing (`list_configmaps`) -/

/-- `ConfigMapResource.list_configmaps`: empty listing returns the
`"No configmaps found."` sentinel, otherwise the comma-joined names; an
`ApiException` yields the fixed error string. -/
def listConfigmaps (lc : Except Unit (List ConfigMapObj)) : String :=
  match lc with
  | .error _ => "Error listing configmaps"
  | .ok items =>
    if items.isEmpty then "No configmaps found."
    else joinWith ", " (items.map (fun cm => cm.name))

end K8sQA

namespace K8sQA

/-! ## Shared helper lemmas -/

theorem toList_append (a b : String) : (a ++ b).toList = a.toList ++ b.toList :=
  String.data_append a b

theorem takeWhile_append_all (p : Char → Bool) (l1 l2 : List Char) (h : ∀ c ∈ l1, p c) :
    (l1 ++ l2).takeWhile p = l1 ++ l2.takeWhile p := by
  induction l1 with
  | nil => simp
  | cons a l ih =>
    simp only [List.cons_append, List.takeWhile_cons, h a (by simp), if_true]
    rw [ih (fun c hc => h c (by simp [hc]))]

theorem parseSize_digits (ds rest : List Char) (hne : ds ≠ []) (hd : ∀ c ∈ ds, c.isDigit)
    (hr : rest.takeWhile (fun c => c.isDigit) = []) :
    parseSize (String.mk (ds ++ rest)) = digitsVal ds * unitMul (unitOf rest) := by
  have h1 : (String.mk (ds ++ rest)).toList = ds ++ rest := rfl
  simp only [parseSize, h1, takeWhile_append_all _ _ _ hd, hr, List.append_nil]
  rw [if_neg (by simpa using hne)]
  rw [List.drop_left]

/-! ## Claim theorems: Quantity Parser -/

/-- C6: parsing a size literal made of leading digits and an optional unit in
`{"", Ki, Mi, Gi, Ti, Pi}` yields the magnitude times the multiplier
`{1, 1024, 1024^2, 1024^3, 1024^4, 1024^5}` respectively, a literal with no
leading digits yields `0`, and the operators `>`, `<`, `=` compare the
resulting byte counts as exact integers — so `parse("1Gi") = 1073741824`,
`compare(">", "2Gi", "1500Mi")` is true and `compare("=", "1Gi", "1024Mi")`
is true. -/
theorem C6_quantity_parsing_and_comparison :
    (∀ (ds : List Char) (u : String), ds ≠ [] → (∀ c ∈ ds, c.isDigit) →
        u ∈ ["", "Ki", "Mi", "Gi", "Ti", "Pi"] →
        parseSize (String.mk ds ++ u) = digitsVal ds * unitMul u)
      ∧ unitMul "" = 1 ∧ unitMul "Ki" = 1024 ∧ unitMul "Mi" = 1024 ^ 2
      ∧ unitMul "Gi" = 1024 ^ 3 ∧ unitMul "Ti" = 1024 ^ 4 ∧ unitMul "Pi" = 1024 ^ 5
      ∧ (∀ (c : Char) (cs : List Char), ¬ c.isDigit = true →
          parseSize (String.mk (c :: cs)) = 0)
      ∧ parseSize "" = 0
      ∧ parseSize "1Gi" = 1073741824
      ∧ compareSize ">" "2Gi" "1500Mi" = true
      ∧ compareSize "=" "1Gi" "1024Mi" = true := by
  refine ⟨?_, by decide, by decide, by decide, by decide, by decide, by decide, ?_, by decide,
    by decide, by decide, by decide⟩
  · intro ds u hne hd hu
    fin_cases hu
    · have : String.mk ds ++ "" = String.mk (ds ++ []) := rfl
      rw [this, parseSize_digits ds [] hne hd rfl]
      rfl
    · have : String.mk ds ++ "Ki" = String.mk (ds ++ ['K', 'i']) := rfl
      rw [this, parseSize_digits ds ['K', 'i'] hne hd (by decide)]
      rfl
    · have : String.mk ds ++ "Mi" = String.mk (ds ++ ['M', 'i']) := rfl
      rw [this, parseSize_digits ds ['M', 'i'] hne hd (by decide)]
      rfl
    · have : String.mk ds ++ "Gi" = String.mk (ds ++ ['G', 'i']) := rfl
      rw [this, parseSize_digits ds ['G', 'i'] hne hd (by decide)]
      rfl
    · have : String.mk ds ++ "Ti" = String.mk (ds ++ ['T', 'i']) := rfl
      rw [this, parseSize_digits ds ['T', 'i'] hne hd (by decide)]
      rfl
    · have : String.mk ds ++ "Pi" = String.mk (ds ++ ['P', 'i']) := rfl
      rw [this, parseSize_digits ds ['P', 'i'] hne hd (by decide)]
      rfl
  · intro c cs hc
    have h1 : (String.mk (c :: cs)).toList = c :: cs := rfl
    simp only [parseSize, h1, List.takeWhile_cons]
    rw [if_neg hc]
    simp

/-- Witness for C6 at the concrete literal `"2Gi"`. -/
theorem C6_witness :
    (['2'] ≠ ([] : List Char))
      ∧ parseSize (String.mk ['2'] ++ "Gi") = digitsVal ['2'] * unitMul "Gi" :=
  ⟨by decide,
    C6_quantity_parsing_and_comparison.1 ['2'] "Gi" (by decide) (by decide) (by decide)⟩

/-- C10: a size literal made of digits followed by a bare unit letter
`K, M, G, T, P` without the trailing `i` (for example `"100G"`) is accepted by
the parser but gets multiplier `1`, so the quantity compares as that many
bytes rather than as the corresponding binary unit. -/
theorem C10_bare_unit_multiplier_one :
    (∀ (ds : List Char) (c : Char), ds ≠ [] → (∀ x ∈ ds, x.isDigit) →
        c ∈ ['K', 'M', 'G', 'T', 'P'] →
        parseSize (String.mk (ds ++ [c])) = digitsVal ds)
      ∧ parseSize "100G" = 100 ∧ parseSize "2K" = 2 := by
  refine ⟨?_, by decide, by decide⟩
  intro ds c hne hd hc
  rw [parseSize_digits ds [c] hne hd ?_]
  · fin_cases hc <;> simp [unitOf, unitMul]
  · fin_cases hc <;> decide

/-- Witness for C10 at the concrete literal `"100G"`. -/
theorem C10_witness :
    (['1', '0', '0'] ≠ ([] : List Char))
      ∧ parseSize (String.mk (['1', '0', '0'] ++ ['G'])) = digitsVal ['1', '0', '0'] :=
  ⟨by decide,
    C10_bare_unit_multiplier_one.1 ['1', '0', '0'] 'G' (by decide) (by decide) (by decide)⟩

/-! ## Claim theorems: Label Selector Builder -/

/-- C7: for every mapping of label keys to values the Label Selector Builder
returns the `key=value` pairs joined by commas in the mapping's order, and the
empty mapping yields the empty string: `{}` gives `""` and
`{"app": "x", "tier": "y"}` gives `"app=x,tier=y"`. -/
theorem C7_label_selector_identity :
    buildLabelSelector [] = ""
      ∧ buildLabelSelector [("app", "x"), ("tier", "y")] = "app=x,tier=y"
      ∧ ∀ labels : List (String × String),
          buildLabelSelector labels
            = joinWith "," (labels.map (fun kv => kv.1 ++ "=" ++ kv.2)) := by
  refine ⟨rfl, by decide, ?_⟩
  intro labels
  cases labels with
  | nil => rfl
  | cons a as => rfl

/-! ## Claim theorems: Dispatch Router -/

/-- A deployment provider slice with an empty listing and failing reads, used
as a concrete instantiation in closed statements. -/
def emptyDeploymentApi : DeploymentApi := ⟨.ok [], fun _ => .error ()⟩

/-- A pod provider slice with an empty listing and failing reads, used as a
concrete instantiation in closed statements. -/
def emptyPodApi : PodApi := ⟨.ok [], fun _ => .error (), fun _ => .error ()⟩

/-- C1: the dispatch is NOT total.  A query with a non-empty label filter
reaches `KubernetesBase.__init__`, which evaluates
`self.labels.items()` on the extractor's `List[Label]` and raises
`AttributeError` before any action is dispatched — on both recognized
resource types — instead of returning a string. -/
theorem C1_dispatch_crashes_on_labeled_query :
    handleQuery emptyDeploymentApi emptyPodApi
        ⟨"workload", "deployment", "count", "default", "", ⟨"", [⟨"app", "x"⟩]⟩⟩
      = .error .attributeError
    ∧ handleQuery emptyDeploymentApi emptyPodApi
        ⟨"workload", "pod", "list", "default", "", ⟨"", [⟨"app", "x"⟩]⟩⟩
      = .error .attributeError :=
  ⟨rfl, rfl⟩

/-- C2 counterexample: a query with the recognized category `"workload"` and
the unrecognized type `"cronjob"` returns `"Dummy"`, a string that does not
contain the text `"Unknown Resource Type"`. -/
theorem C2_counterexample :
    handleQuery emptyDeploymentApi emptyPodApi
        ⟨"workload", "cronjob", "list", "default", "", ⟨"", []⟩⟩ = .ok "Dummy"
      ∧ containsSubstr "Dummy" "Unknown Resource Type" = false :=
  ⟨rfl, by decide⟩

/-- C2 amended: for every query whose `resource_category` is the recognized
`"workload"` but whose `resource_type` is not recognized for it (neither
`"deployment"` nor `"pod"`), the dispatcher returns the fixed string
`"Dummy"` — not an exception, and not an "Unknown Resource Type" text. -/
theorem C2_amended_unknown_type_returns_dummy
    (dapi : DeploymentApi) (papi : PodApi) (q : KubernetesQuery)
    (hcat : q.resource_category = "workload")
    (h1 : q.resource_type ≠ "deployment") (h2 : q.resource_type ≠ "pod") :
    handleQuery dapi papi q = .ok "Dummy" := by
  simp [handleQuery, hcat, h1, h2]

/-- Witness for the amended C2 at a concrete query of type `"service"`. -/
theorem C2_amended_witness :
    (("workload" : String) = "workload" ∧ ("service" : String) ≠ "deployment"
        ∧ ("service" : String) ≠ "pod")
      ∧ handleQuery emptyDeploymentApi emptyPodApi
          ⟨"workload", "service", "list", "default", "", ⟨"", []⟩⟩ = .ok "Dummy" :=
  ⟨⟨rfl, by decide, by decide⟩,
    C2_amended_unknown_type_returns_dummy emptyDeploymentApi emptyPodApi
      ⟨"workload", "service", "list", "default", "", ⟨"", []⟩⟩ rfl (by decide) (by decide)⟩

/-- C9: every query whose category is not `"workload"`, and every
`"workload"` query whose type is neither `"deployment"` nor `"pod"`, makes
`handle_query` return the literal string `"Dummy"` — independent of the
cluster state, so no config-storage, services, or cluster handler is ever
reached from `handle_query`. -/
theorem C9_dispatcher_fallback_dummy
    (dapi : DeploymentApi) (papi : PodApi) (q : KubernetesQuery)
    (h : q.resource_category ≠ "workload"
        ∨ (q.resource_type ≠ "deployment" ∧ q.resource_type ≠ "pod")) :
    handleQuery dapi papi q = .ok "Dummy" := by
  rcases h with h | ⟨h1, h2⟩
  · simp [handleQuery, h]
  · by_cases hcat : q.resource_category = "workload" <;>
      simp [handleQuery, hcat, h1, h2]

/-- Witness for C9 at a concrete `"cluster"`-category query. -/
theorem C9_witness :
    (("cluster" : String) ≠ "workload")
      ∧ handleQuery emptyDeploymentApi emptyPodApi
          ⟨"cluster", "node", "list", "default", "", ⟨"", []⟩⟩ = .ok "Dummy" :=
  ⟨by decide,
    C9_dispatcher_fallback_dummy emptyDeploymentApi emptyPodApi
      ⟨"cluster", "node", "list", "default", "", ⟨"", []⟩⟩ (Or.inl (by decide))⟩


/-! ## Claim theorems: sentinel contract (C8) -/

/-- C8 counterexample: a deployment listing with one deployment of `0`
available replicas and the status filter `"active"` matches zero objects, yet
its result `"No active deployments found."` does not contain the contiguous
phrase `"No deployments"`. -/
theorem C8_counterexample :
    ([(⟨"d1", some 0, some 3⟩ : DeploymentObj)].filter (deploymentKeep "active")) = []
      ∧ listDeployments (.ok [⟨"d1", some 0, some 3⟩]) "active" = "No active deployments found."
      ∧ containsSubstr "No active deployments found." "No deployments" = false :=
  ⟨by decide, rfl, by decide⟩

/-- C8 amended: a list action over an empty listing returns the non-empty
sentinel containing the literal phrase `"No <kind>"` with the kind name's
case preserved (shown for the two cited kinds, configmaps and deployments);
when objects exist but a status filter matches none of them, the deployment
listing instead returns `"No <status> deployments found."` — still non-empty,
but with the status word between `"No"` and the kind name. -/
theorem C8_amended_sentinels :
    (listConfigmaps (.ok []) = "No configmaps found."
        ∧ containsSubstr "No configmaps found." "No configmaps" = true
        ∧ "No configmaps found." ≠ "")
      ∧ (∀ sf, listDeployments (.ok []) sf = "No deployments found.")
      ∧ containsSubstr "No deployments found." "No deployments" = true
      ∧ (∀ (ds : List DeploymentObj) (sf : String), ds ≠ [] →
          ds.filter (deploymentKeep sf) = [] →
          listDeployments (.ok ds) sf = "No " ++ sf ++ " deployments found."
            ∧ "No " ++ sf ++ " deployments found." ≠ "") := by
  refine ⟨⟨rfl, by decide, by decide⟩, fun sf => rfl, by decide, ?_⟩
  intro ds sf hne hf
  constructor
  · simp [listDeployments, hne, hf]
  · intro h
    have h2 := congrArg String.toList h
    rw [toList_append, toList_append] at h2
    have h3 : ("No " : String).toList = ['N', 'o', ' '] := rfl
    rw [h3] at h2
    simp at h2

/-- Witness for the amended C8 at a concrete filtered-empty listing. -/
theorem C8_amended_witness :
    (([(⟨"d1", some 0, some 3⟩ : DeploymentObj)] ≠ [])
        ∧ [(⟨"d1", some 0, some 3⟩ : DeploymentObj)].filter (deploymentKeep "active") = [])
      ∧ listDeployments (.ok [⟨"d1", some 0, some 3⟩]) "active"
          = "No " ++ "active" ++ " deployments found." :=
  ⟨⟨by decide, by decide⟩,
    (C8_amended_sentinels.2.2.2 [⟨"d1", some 0, some 3⟩] "active" (by decide) (by decide)).1⟩

/-! ## Claim theorems: fail-closed relationship queries (C4) -/

/-- C4 amended: a failing per-kind listing during `used_by` makes the whole
query report the fixed provider-error text, and never lets any object into
the unused collection; a failing ConfigMap listing during `unused` reports
the provider-error text as well.  (The counterexample shows the part of C4
that fails: an inner per-kind failure during `unused` is not reported in the
overall result.) -/
theorem C4_amended_fail_closed :
    (∀ (p : RelProvider) (n : String),
        (p.deployments.isOk && p.statefulsets.isOk
            && p.daemonsets.isOk && p.pods.isOk) = false →
        getWorkloadsUsingConfigmap p n = "Error finding workloads using configmap"
          ∧ unusedConfigmapNames p = [])
      ∧ (∀ p : RelProvider, p.configmaps.isOk = false →
          getUnusedConfigmaps p = "Error retrieving unused configmaps") := by
  constructor
  · rintro ⟨d, s, a, pods, cms⟩ n h
    have herr : containsSubstr "Error finding workloads using configmap"
        "No workloads are using ConfigMap" = false := by decide
    cases d <;> cases s <;> cases a <;> cases pods
    all_goals first
      | (refine ⟨rfl, ?_⟩
         cases cms <;>
           simp [unusedConfigmapNames, getWorkloadsUsingConfigmap, herr])
      | simp [Except.isOk, Except.toBool] at h
  · rintro ⟨d, s, a, pods, cms⟩ h
    cases cms
    · rfl
    · simp [Except.isOk, Except.toBool] at h

/-- A provider whose pod listing fails while everything else succeeds, with
one ConfigMap `"a"` present. -/
def podsFailProvider : RelProvider := ⟨.ok [], .ok [], .ok [], .error (), .ok [⟨"a"⟩]⟩

/-- C4 counterexample: with the pod listing failing, the `unused` query
returns the ordinary verdict `"All ConfigMaps are used by workloads."` — it
does not report the provider error (the word `"Error"` does not even occur in
it), contradicting the claim that the whole query's result reports the
error. -/
theorem C4_counterexample :
    podsFailProvider.pods = .error ()
      ∧ getUnusedConfigmaps podsFailProvider = "All ConfigMaps are used by workloads."
      ∧ containsSubstr "All ConfigMaps are used by workloads." "Error" = false :=
  ⟨rfl, by decide, by decide⟩

/-- Witness for the amended C4 at the concrete failing provider. -/
theorem C4_witness :
    ((podsFailProvider.deployments.isOk && podsFailProvider.statefulsets.isOk
        && podsFailProvider.daemonsets.isOk && podsFailProvider.pods.isOk) = false)
      ∧ getWorkloadsUsingConfigmap podsFailProvider "a"
          = "Error finding workloads using configmap"
      ∧ unusedConfigmapNames podsFailProvider = [] :=
  ⟨by decide, (C4_amended_fail_closed.1 podsFailProvider "a" (by decide)).1,
    (C4_amended_fail_closed.1 podsFailProvider "a" (by decide)).2⟩


/-! ## Claim theorems: secret relationship-scan coverage (C5) -/

/-- Modelled from the spec's description of the Relationship Resolver, for
comparison with the code's scan: a pod specification references the target
Secret when a volume's secret name equals the target, a container `envFrom`
secret reference names the target, a container `env` `valueFrom` secret-key
reference names the target, or an image-pull-secrets entry names the
target. -/
def SpecUsesSecret (sp : PodSpec) (n : String) : Prop :=
  (∃ v ∈ sp.volumes, v.secretName = some n)
    ∨ (∃ c ∈ sp.containers,
        (∃ e ∈ c.envFrom, e.secretRefName = some n)
          ∨ (∃ ev ∈ c.env, ∃ vf, ev.valueFrom = some vf ∧ vf.secretKeyRefName = some n))
    ∨ n ∈ sp.imagePullSecrets

/-- The code's `_uses_secret` test agrees with the spec-side predicate. -/
theorem usesSecret_iff (sp : PodSpec) (n : String) :
    usesSecret sp n = true ↔ SpecUsesSecret sp n := by
  simp only [usesSecret, SpecUsesSecret, Bool.or_eq_true, List.any_eq_true, beq_iff_eq]
  constructor
  · rintro ((h | h) | h)
    · exact Or.inl h
    · rcases h with ⟨c, hc, h | h⟩
      · exact Or.inr (Or.inl ⟨c, hc, Or.inl h⟩)
      · rcases h with ⟨e, he, hv⟩
        cases hvf : e.valueFrom with
        | none => rw [hvf] at hv; simp [Option.any] at hv
        | some vf =>
          rw [hvf] at hv
          simp [Option.any, beq_iff_eq] at hv
          exact Or.inr (Or.inl ⟨c, hc, Or.inr ⟨e, he, vf, hvf, hv⟩⟩)
    · rcases h with ⟨i, hi, rfl⟩
      exact Or.inr (Or.inr hi)
  · rintro (h | ⟨c, hc, h | ⟨e, he, vf, hvf, hn⟩⟩ | h)
    · exact Or.inl (Or.inl h)
    · exact Or.inl (Or.inr ⟨c, hc, Or.inl h⟩)
    · refine Or.inl (Or.inr ⟨c, hc, Or.inr ⟨e, he, ?_⟩⟩)
      rw [hvf]
      simp [Option.any, beq_iff_eq, hn]
    · exact Or.inr ⟨n, h, rfl⟩

/-- C5: for any Secret name and namespace state, a workload appears in the
`used_by` consumer list exactly when it is a Deployment, StatefulSet, or
DaemonSet of the namespace whose pod template spec, or a Pod of the namespace
with an empty owner-reference list whose pod spec, references the target via
at least one of the four mechanisms (volume secret name, container `envFrom`
secret reference, container `env` `valueFrom` secret-key reference, or an
image-pull-secrets entry). -/
theorem C5_secret_scan_coverage (ds ss dss : List WorkloadObj) (ps : List PodObj)
    (n tag : String) :
    tag ∈ secretConsumerTags ds ss dss ps n ↔
      (∃ d ∈ ds, tag = "Deployment/" ++ d.name ∧ SpecUsesSecret d.template n)
        ∨ (∃ s ∈ ss, tag = "StatefulSet/" ++ s.name ∧ SpecUsesSecret s.template n)
        ∨ (∃ a ∈ dss, tag = "DaemonSet/" ++ a.name ∧ SpecUsesSecret a.template n)
        ∨ (∃ q ∈ ps, q.ownerReferences = [] ∧ tag = "Pod/" ++ q.name
            ∧ SpecUsesSecret q.spec n) := by
  simp only [secretConsumerTags, List.mem_append, List.mem_map, List.mem_filter,
    Bool.and_eq_true, List.isEmpty_iff, usesSecret_iff]
  constructor
  · rintro (((⟨d, ⟨hd, hu⟩, rfl⟩ | ⟨s, ⟨hs, hu⟩, rfl⟩) | ⟨a, ⟨ha, hu⟩, rfl⟩)
      | ⟨q, ⟨hq, ho, hu⟩, rfl⟩)
    · exact Or.inl ⟨d, hd, rfl, hu⟩
    · exact Or.inr (Or.inl ⟨s, hs, rfl, hu⟩)
    · exact Or.inr (Or.inr (Or.inl ⟨a, ha, rfl, hu⟩))
    · exact Or.inr (Or.inr (Or.inr ⟨q, hq, ho, rfl, hu⟩))
  · rintro (⟨d, hd, rfl, hu⟩ | ⟨s, hs, rfl, hu⟩ | ⟨a, ha, rfl, hu⟩ | ⟨q, hq, ho, rfl, hu⟩)
    · exact Or.inl (Or.inl (Or.inl ⟨d, ⟨hd, hu⟩, rfl⟩))
    · exact Or.inl (Or.inl (Or.inr ⟨s, ⟨hs, hu⟩, rfl⟩))
    · exact Or.inl (Or.inr ⟨a, ⟨ha, hu⟩, rfl⟩)
    · exact Or.inr ⟨q, ⟨hq, ho, hu⟩, rfl⟩


/-! ## Claim theorems: used/unused consistency (C3)

The `unused` loop decides "unused" by testing the per-object `used_by` result
string for the substring `"No workloads are using ConfigMap"`.  The proof
shows this substring test is exact for cluster states whose workload and
object names contain no space character (every valid Kubernetes object name
is such, names being DNS-1123 labels/subdomains): the empty-consumer result
starts with the sentinel, while a non-empty result contains only the three
spaces of its header, fewer than the four spaces of the sentinel, so the
sentinel cannot occur in it. -/

theorem space_not_mem_joinWith (sep : String) (l : List String)
    (hsep : ' ' ∉ sep.toList) (h : ∀ t ∈ l, ' ' ∉ t.toList) :
    ' ' ∉ (joinWith sep l).toList := by
  induction l with
  | nil => simp [joinWith]
  | cons x xs ih =>
    cases xs with
    | nil => simpa [joinWith] using h x (by simp)
    | cons y ys =>
      have hx := h x (by simp)
      have hrest : ' ' ∉ (joinWith sep (y :: ys)).toList :=
        ih (fun t ht => h t (by simp [ht]))
      show ' ' ∉ (x ++ sep ++ joinWith sep (y :: ys)).toList
      rw [toList_append, toList_append]
      intro hmem
      rcases List.mem_append.1 hmem with hm | hm
      · rcases List.mem_append.1 hm with hm2 | hm2
        · exact hx hm2
        · exact hsep hm2
      · exact hrest hm

theorem tags_space_free (ds ss dss : List WorkloadObj) (ps : List PodObj) (n : String)
    (h1 : ∀ w ∈ ds, ' ' ∉ w.name.toList) (h2 : ∀ w ∈ ss, ' ' ∉ w.name.toList)
    (h3 : ∀ w ∈ dss, ' ' ∉ w.name.toList) (h4 : ∀ q ∈ ps, ' ' ∉ q.name.toList) :
    ∀ t ∈ configmapConsumerTags ds ss dss ps n, ' ' ∉ t.toList := by
  have hpre : ∀ (pre nm : String), ' ' ∉ pre.toList → ' ' ∉ nm.toList →
      ' ' ∉ (pre ++ nm).toList := by
    intro pre nm hp hn hmem
    rw [toList_append] at hmem
    rcases List.mem_append.1 hmem with hm | hm
    exacts [hp hm, hn hm]
  intro t ht
  simp only [configmapConsumerTags, List.mem_append, List.mem_map, List.mem_filter] at ht
  rcases ht with ((⟨d, ⟨hd, _⟩, rfl⟩ | ⟨s, ⟨hs, _⟩, rfl⟩) | ⟨a, ⟨ha, _⟩, rfl⟩)
    | ⟨q, ⟨hq, _⟩, rfl⟩
  · exact hpre _ _ (by decide) (h1 d hd)
  · exact hpre _ _ (by decide) (h2 s hs)
  · exact hpre _ _ (by decide) (h3 a ha)
  · exact hpre _ _ (by decide) (h4 q hq)

theorem sentinel_not_in_used (n : String) (tags : List String)
    (hn : ' ' ∉ n.toList) (ht : ∀ t ∈ tags, ' ' ∉ t.toList) :
    containsSubstr ("Workloads using ConfigMap '" ++ n ++ "':\n" ++ joinWith "\n" tags)
      "No workloads are using ConfigMap" = false := by
  rw [containsSubstr, decide_eq_false_iff_not]
  intro hinf
  have hcount := (List.IsInfix.sublist hinf).count_le ' '
  rw [toList_append, toList_append, toList_append] at hcount
  rw [List.count_append, List.count_append, List.count_append] at hcount
  have c1 : ("Workloads using ConfigMap '" : String).toList.count ' ' = 3 := by decide
  have c2 : n.toList.count ' ' = 0 := List.count_eq_zero.2 hn
  have c3 : ("':\n" : String).toList.count ' ' = 0 := by decide
  have c4 : (joinWith "\n" tags).toList.count ' ' = 0 :=
    List.count_eq_zero.2 (space_not_mem_joinWith "\n" tags (by decide) ht)
  have c5 : ("No workloads are using ConfigMap" : String).toList.count ' ' = 4 := by decide
  rw [c1, c2, c3, c4, c5] at hcount
  omega

theorem sentinel_in_noresult (n : String) :
    containsSubstr ("No workloads are using ConfigMap '" ++ n ++ "'.")
      "No workloads are using ConfigMap" = true := by
  rw [containsSubstr, decide_eq_true_iff]
  refine ⟨[], (" '" : String).toList ++ n.toList ++ ("'." : String).toList, ?_⟩
  have hsplit : ("No workloads are using ConfigMap '" : String).toList
      = ("No workloads are using ConfigMap" : String).toList ++ (" '" : String).toList := by
    decide
  rw [List.nil_append, toList_append, toList_append, hsplit]
  simp [List.append_assoc]

theorem mem_unusedConfigmapNames (p : RelProvider) (cms : List ConfigMapObj) (n : String)
    (hc : p.configmaps = .ok cms) :
    n ∈ unusedConfigmapNames p ↔ ∃ cm ∈ cms, cm.name = n
        ∧ containsSubstr (getWorkloadsUsingConfigmap p cm.name)
            "No workloads are using ConfigMap" = true := by
  simp [unusedConfigmapNames, hc, List.mem_map, List.mem_filter]
  constructor
  · rintro ⟨cm, ⟨hcm, hco⟩, rfl⟩
    exact ⟨cm, hcm, rfl, hco⟩
  · rintro ⟨cm, hcm, rfl, hco⟩
    exact ⟨cm, ⟨hcm, hco⟩, rfl⟩

/-- C3: over one cluster state with all listing calls succeeding and
space-free (i.e. valid Kubernetes) object names, for any ConfigMap name of the
namespace the `used_by` scan returns a non-empty consumer list exactly when
that name is absent from the result set of the namespace-wide `unused`
query. -/
theorem C3_used_unused_consistency
    (p : RelProvider) (ds ss dss : List WorkloadObj) (ps : List PodObj)
    (cms : List ConfigMapObj) (n : String)
    (hd : p.deployments = .ok ds) (hs : p.statefulsets = .ok ss)
    (hda : p.daemonsets = .ok dss) (hp : p.pods = .ok ps) (hc : p.configmaps = .ok cms)
    (hn : n ∈ cms.map (fun cm => cm.name))
    (h1 : ∀ w ∈ ds, ' ' ∉ w.name.toList) (h2 : ∀ w ∈ ss, ' ' ∉ w.name.toList)
    (h3 : ∀ w ∈ dss, ' ' ∉ w.name.toList) (h4 : ∀ q ∈ ps, ' ' ∉ q.name.toList)
    (hsp : ' ' ∉ n.toList) :
    configmapConsumerTags ds ss dss ps n ≠ [] ↔ n ∉ unusedConfigmapNames p := by
  have hresult : getWorkloadsUsingConfigmap p n
      = (if (configmapConsumerTags ds ss dss ps n).isEmpty
          then "No workloads are using ConfigMap '" ++ n ++ "'."
          else "Workloads using ConfigMap '" ++ n ++ "':\n"
            ++ joinWith "\n" (configmapConsumerTags ds ss dss ps n)) := by
    simp only [getWorkloadsUsingConfigmap, hd, hs, hda, hp]
  have hkey : containsSubstr (getWorkloadsUsingConfigmap p n)
      "No workloads are using ConfigMap" = true
        ↔ configmapConsumerTags ds ss dss ps n = [] := by
    constructor
    · intro hcontains
      by_contra hne
      rw [hresult, if_neg (by simpa [List.isEmpty_iff] using hne),
        sentinel_not_in_used n _ hsp (tags_space_free ds ss dss ps n h1 h2 h3 h4)]
        at hcontains
      exact Bool.false_ne_true hcontains
    · intro hempty
      rw [hresult, if_pos (by simpa [List.isEmpty_iff] using hempty)]
      exact sentinel_in_noresult n
  have hmem : n ∈ unusedConfigmapNames p
      ↔ containsSubstr (getWorkloadsUsingConfigmap p n)
          "No workloads are using ConfigMap" = true := by
    rw [mem_unusedConfigmapNames p cms n hc]
    constructor
    · rintro ⟨cm, hcm, rfl, hco⟩
      exact hco
    · intro hco
      rcases List.mem_map.1 hn with ⟨cm, hcm, heq⟩
      refine ⟨cm, hcm, heq, ?_⟩
      rw [heq]
      exact hco
  constructor
  · intro hne hmem'
    exact hne (hkey.1 (hmem.1 hmem'))
  · intro hnot hempty
    exact hnot (hmem.2 (hkey.2 hempty))

/-- A provider with one deployment mounting ConfigMap `"my-config"` as a
volume and two listed ConfigMaps, `"my-config"` and `"other"`. -/
def usedUnusedProvider : RelProvider :=
  ⟨.ok [⟨"my-deployment", ⟨[⟨some "my-config", none⟩], [], []⟩⟩],
    .ok [], .ok [], .ok [], .ok [⟨"my-config"⟩, ⟨"other"⟩]⟩

/-- Witness for C3 at the concrete provider: `"my-config"` has a consumer and
is absent from the unused result set. -/
theorem C3_witness :
    ("my-config" ∈ ([⟨"my-config"⟩, ⟨"other"⟩] : List ConfigMapObj).map (fun cm => cm.name))
      ∧ (configmapConsumerTags
            [⟨"my-deployment", ⟨[⟨some "my-config", none⟩], [], []⟩⟩] [] [] [] "my-config" ≠ []
          ↔ "my-config" ∉ unusedConfigmapNames usedUnusedProvider) :=
  ⟨by decide,
    C3_used_unused_consistency usedUnusedProvider _ _ _ _ _ "my-config" rfl rfl rfl rfl rfl
      (by decide) (by decide) (by decide) (by decide) (by decide) (by decide)⟩

end K8sQA
